import Mathlib

/-!
# Verification of the haversine road network

A shallow embedding of `src/rust/src/road_network.rs`.  Strings are modelled
as lists of characters; `f64` distances are modelled as rationals, which is
faithful because the code performs no floating-point arithmetic: every
distance is passed through from the external oracle unchanged, and the only
float literals are `40.0` and `0.0`.  Rust `Result`/`PyResult` are modelled
as `Except` over error-message character lists, and the external
`utils::h3_dist_km` collaborator is an explicit function parameter.
-/

namespace RoadNetwork

/-- Spatial-cell identifier string (`GeoidString` in the source). -/
abbrev GeoidString := List Char

/-- `pub type LinkId = String`. -/
abbrev LinkId := List Char

/-- The external cell-distance collaborator `utils::h3_dist_km`, of shape
`(&GeoidString, &GeoidString) -> Result<f64>`.  The spec treats it purely as
a function `distance_km(cell_a, cell_b) -> Result<f64>`. -/
abbrev DistOracle := GeoidString → GeoidString → Except (List Char) ℚ

/-- `const AVG_SPEED_KMPH: f64 = 40.0;` -/
def AVG_SPEED_KMPH : ℚ := 40

/-- `geoid_string_to_link_id`: `format!("{}-{}", origin, destination)`. -/
def geoid_string_to_link_id (origin destination : GeoidString) : LinkId :=
  origin ++ ['-'] ++ destination

/-- Rust `link_id.split("-").collect::<Vec<&str>>()` for the one-character
pattern `"-"`: the pieces between occurrences of `'-'`, so that
`"a-b"` ↦ `["a", "b"]`, `"-"` ↦ `["", ""]`, `""` ↦ `[""]`. -/
def splitDash : List Char → List (List Char)
  | [] => [[]]
  | c :: cs =>
    match splitDash cs with
    | [] => [[]]
    | p :: ps => if c = '-' then [] :: p :: ps else (c :: p) :: ps

/-- The constant message of `anyhow!("LinkId not in expected format of [Geoid]-[Geoid]")`. -/
def malformedLinkIdMsg : List Char :=
  ("LinkId not in expected format of [Geoid]-[Geoid]").data

/-- `link_id_to_geoids`: splits on `"-"`; errors unless the split has
exactly two pieces, otherwise returns `(ids[0], ids[1])`. -/
def link_id_to_geoids (link_id : LinkId) : Except (List Char) (GeoidString × GeoidString) :=
  let ids := splitDash link_id
  if ids.length ≠ 2 then
    Except.error malformedLinkIdMsg
  else
    Except.ok (ids.getD 0 [], ids.getD 1 [])

/-- Modelled from the spec: the `EntityPosition` value type (an agent's
current cell + current link identifier), an out-of-scope collaborator
declared in `entity_position.rs` which is not under `src/`.  The spec treats
it as a plain data record `{ link_id: LinkId, geoid: CellId }`; equality
(used by `route`'s `origin == destination` test) is field-wise. -/
structure EntityPosition where
  link_id : LinkId
  geoid : GeoidString
deriving DecidableEq

/-- Modelled from the spec: the `LinkTraversal` value type (a link's id,
endpoints, distance, speed), an out-of-scope collaborator declared in
`link.rs` which is not under `src/`.  The spec treats it as a plain data
record the core fills in and returns.  `end` is written `«end»` because it
is a Lean keyword. -/
structure LinkTraversal where
  link_id : LinkId
  start : GeoidString
  «end» : GeoidString
  distance_km : ℚ
  speed_kmph : ℚ
deriving DecidableEq

/-- `struct HaversineRoadNetwork { sim_h3_resolution: usize }`. -/
structure HaversineRoadNetwork where
  sim_h3_resolution : Nat
deriving DecidableEq

/-- `HaversineRoadNetwork::new(sim_h3_resolution: Option<usize>)`:
defaults the resolution to 15 and never fails. -/
def HaversineRoadNetwork.new (sim_h3_resolution : Option Nat) :
    Except (List Char) HaversineRoadNetwork :=
  let res := match sim_h3_resolution with
    | some res => res
    | none => 15
  Except.ok { sim_h3_resolution := res }

/-- The error message `format!("Failure computing h3 distance: {}", e)`. -/
def h3FailureMsg (e : List Char) : List Char :=
  ("Failure computing h3 distance: ").data ++ e

/-- The error message `format!("Error converting link id to geoid {}", e)`. -/
def convertLinkIdErrMsg (e : List Char) : List Char :=
  ("Error converting link id to geoid ").data ++ e

/-- `HaversineRoadNetwork::route`. -/
def HaversineRoadNetwork.route (self : HaversineRoadNetwork) (h3_dist_km : DistOracle)
    (origin destination : EntityPosition) : Except (List Char) (List LinkTraversal) :=
  if origin = destination then
    Except.ok []
  else
    let link_id := geoid_string_to_link_id origin.geoid destination.geoid
    match h3_dist_km origin.geoid destination.geoid with
    | Except.error e => Except.error (h3FailureMsg e)
    | Except.ok link_dist_km =>
      let link : LinkTraversal :=
        { link_id := link_id
          start := origin.geoid
          «end» := destination.geoid
          distance_km := link_dist_km
          speed_kmph := AVG_SPEED_KMPH }
      Except.ok [link]

/-- `HaversineRoadNetwork::distance_by_geoid_km`: `h3_dist_km(...).map_err(...)`. -/
def HaversineRoadNetwork.distance_by_geoid_km (self : HaversineRoadNetwork)
    (h3_dist_km : DistOracle) (origin destination : GeoidString) : Except (List Char) ℚ :=
  match h3_dist_km origin destination with
  | Except.ok d => Except.ok d
  | Except.error e => Except.error (h3FailureMsg e)

/-- `HaversineRoadNetwork::link_from_link_id`. -/
def HaversineRoadNetwork.link_from_link_id (self : HaversineRoadNetwork)
    (h3_dist_km : DistOracle) (link_id : LinkId) : Except (List Char) LinkTraversal :=
  match link_id_to_geoids link_id with
  | Except.error e => Except.error (convertLinkIdErrMsg e)
  | Except.ok (source, dest) =>
    match self.distance_by_geoid_km h3_dist_km source dest with
    | Except.error e => Except.error e
    | Except.ok dist_km =>
      Except.ok
        { link_id := link_id
          start := source
          «end» := dest
          distance_km := dist_km
          speed_kmph := AVG_SPEED_KMPH }

/-- `HaversineRoadNetwork::link_from_geoid`: the degenerate self-link. -/
def HaversineRoadNetwork.link_from_geoid (self : HaversineRoadNetwork)
    (geoid : GeoidString) : LinkTraversal :=
  let link_id := geoid_string_to_link_id geoid geoid
  { link_id := link_id
    start := geoid
    «end» := geoid
    distance_km := 0
    speed_kmph := 0 }

/-- `HaversineRoadNetwork::position_from_geoid`. -/
def HaversineRoadNetwork.position_from_geoid (self : HaversineRoadNetwork)
    (geoid : GeoidString) : EntityPosition :=
  let link := self.link_from_geoid geoid
  { link_id := link.link_id, geoid := geoid }

/-- `HaversineRoadNetwork::geoid_within_geofence`: always `true`. -/
def HaversineRoadNetwork.geoid_within_geofence (self : HaversineRoadNetwork)
    (_geoid : GeoidString) : Bool :=
  true

/-- A concrete oracle that accepts every pair of cells with distance `0`.
It returns `0` for equal cells and a non-negative value otherwise, as the
spec assumes of the external collaborator. -/
def oracleZero : DistOracle := fun _ _ => Except.ok 0

/-- A concrete oracle that rejects every pair of cells with cause `boom`. -/
def oracleFail : DistOracle := fun _ _ => Except.error ("boom").data

/-- The traversal that `link_from_link_id` builds for the input `"a-a"` over
an oracle that returns distance `0`: equal endpoints, yet speed `40`. -/
def selfLoopTraversal : LinkTraversal :=
  { link_id := ("a-a").data, start := ("a").data, «end» := ("a").data,
    distance_km := 0, speed_kmph := 40 }

/-- `splitDash` never returns the empty list of pieces. -/
theorem splitDash_ne_nil (s : List Char) : splitDash s ≠ [] := by
  cases s with
  | nil => simp [splitDash]
  | cons c cs =>
    simp only [splitDash]
    cases h : splitDash cs with
    | nil => simp
    | cons p ps => by_cases hc : c = '-' <;> simp [hc]

/-- Unfolding of `splitDash` on a cons cell. -/
theorem splitDash_cons (c : Char) (cs p : List Char) (ps : List (List Char))
    (hcs : splitDash cs = p :: ps) :
    splitDash (c :: cs) = if c = '-' then [] :: p :: ps else (c :: p) :: ps := by
  rw [splitDash, hcs]

/-- A separator-free string splits into a single piece: itself. -/
theorem splitDash_of_not_mem (s : List Char) (h : '-' ∉ s) : splitDash s = [s] := by
  induction s with
  | nil => rfl
  | cons c cs ih =>
    have hc : c ≠ '-' := fun hEq => h (hEq ▸ List.mem_cons_self c cs)
    have hcs : '-' ∉ cs := fun hm => h (List.mem_cons_of_mem c hm)
    rw [splitDash_cons c cs cs [] (ih hcs), if_neg hc]

/-- Splitting a string that starts with a separator-free piece followed by a
separator peels off that piece. -/
theorem splitDash_encode (a b : List Char) (ha : '-' ∉ a) :
    splitDash (a ++ '-' :: b) = a :: splitDash b := by
  induction a with
  | nil =>
    rw [List.nil_append]
    cases h : splitDash b with
    | nil => exact absurd h (splitDash_ne_nil b)
    | cons p ps => rw [splitDash_cons '-' b p ps h, if_pos rfl]
  | cons c cs ih =>
    have hc : c ≠ '-' := fun hEq => ha (hEq ▸ List.mem_cons_self c cs)
    have hcs : '-' ∉ cs := fun hm => ha (List.mem_cons_of_mem c hm)
    rw [List.cons_append]
    cases h : splitDash b with
    | nil => exact absurd h (splitDash_ne_nil b)
    | cons p ps =>
      rw [h] at ih
      rw [splitDash_cons c (cs ++ '-' :: b) cs (p :: ps) (ih hcs), if_neg hc]

/-- If the split of `s` is the single piece `a` then `s` is `a`. -/
theorem splitDash_eq_single (s a : List Char) (h : splitDash s = [a]) : s = a := by
  induction s generalizing a with
  | nil => rw [splitDash] at h; exact (List.cons.inj h).1
  | cons c cs ih =>
    cases hcs : splitDash cs with
    | nil => exact absurd hcs (splitDash_ne_nil cs)
    | cons p ps =>
      rw [splitDash_cons c cs p ps hcs] at h
      by_cases hc : c = '-'
      · rw [if_pos hc] at h
        exact absurd h (by simp)
      · rw [if_neg hc] at h
        obtain ⟨h1, h2⟩ := List.cons.inj h
        have hcsp : cs = p := ih p (by rw [hcs, h2])
        rw [← h1, hcsp]

/-- If the split of `s` is exactly the two pieces `a` and `b` then `s` is
literally `a`, the separator, then `b`. -/
theorem splitDash_eq_pair (s a b : List Char) (h : splitDash s = [a, b]) :
    s = a ++ '-' :: b := by
  induction s generalizing a with
  | nil => rw [splitDash] at h; exact absurd h (by simp)
  | cons c cs ih =>
    cases hcs : splitDash cs with
    | nil => exact absurd hcs (splitDash_ne_nil cs)
    | cons p ps =>
      rw [splitDash_cons c cs p ps hcs] at h
      by_cases hc : c = '-'
      · rw [if_pos hc] at h
        obtain ⟨h1, h2⟩ := List.cons.inj h
        obtain ⟨h3, h4⟩ := List.cons.inj h2
        have hcsb : cs = b := by
          apply splitDash_eq_single
          rw [hcs, h3, h4]
        rw [hc, ← h1, hcsb, List.nil_append]
      · rw [if_neg hc] at h
        obtain ⟨h1, h2⟩ := List.cons.inj h
        have hcsp : cs = p ++ '-' :: b := by
          apply ih
          rw [hcs, h2]
        rw [← h1, hcsp, List.cons_append]

/-- The encoder produces the origin, one separator, then the destination. -/
theorem encode_eq_append (a b : GeoidString) :
    geoid_string_to_link_id a b = a ++ '-' :: b := by
  rw [geoid_string_to_link_id, List.append_assoc, List.singleton_append]

/-- Decoding an encoded pair of separator-free cells recovers the pair. -/
theorem link_id_to_geoids_encode (a b : GeoidString) (ha : '-' ∉ a) (hb : '-' ∉ b) :
    link_id_to_geoids (geoid_string_to_link_id a b) = Except.ok (a, b) := by
  have h : splitDash (geoid_string_to_link_id a b) = [a, b] := by
    rw [encode_eq_append, splitDash_encode a b ha, splitDash_of_not_mem b hb]
  simp [link_id_to_geoids, h]

/-- A successful decode means the split was exactly the two returned pieces. -/
theorem link_id_to_geoids_ok (s : LinkId) (a b : GeoidString)
    (h : link_id_to_geoids s = Except.ok (a, b)) : splitDash s = [a, b] := by
  rw [link_id_to_geoids] at h
  by_cases hl : (splitDash s).length = 2
  · obtain ⟨x, y, hxy⟩ := List.length_eq_two.mp hl
    rw [if_neg (by simp [hl])] at h
    rw [hxy] at h ⊢
    simp only [List.getD_cons_zero, List.getD_cons_succ, Except.ok.injEq,
      Prod.mk.injEq] at h
    rw [h.1, h.2]
  · rw [if_pos hl] at h
    exact absurd h (by simp)

/-- Claim C1, counterexample: two positions with equal `geoid` fields but
different `link_id` fields; `route` compares whole positions, so it does not
return the empty sequence — it returns a one-element self-loop route. -/
theorem route_nonempty_for_equal_geoids_cex :
    ({ link_id := ("x").data, geoid := ("a").data } : EntityPosition).geoid =
      ({ link_id := ("y").data, geoid := ("a").data } : EntityPosition).geoid ∧
    (HaversineRoadNetwork.mk 15).route oracleZero
        { link_id := ("x").data, geoid := ("a").data }
        { link_id := ("y").data, geoid := ("a").data } =
      Except.ok [{ link_id := ("a-a").data, start := ("a").data, «end» := ("a").data,
                   distance_km := 0, speed_kmph := 40 }] ∧
    (HaversineRoadNetwork.mk 15).route oracleZero
        { link_id := ("x").data, geoid := ("a").data }
        { link_id := ("y").data, geoid := ("a").data } ≠ Except.ok [] := by
  refine ⟨rfl, rfl, fun h => ?_⟩
  rw [show (HaversineRoadNetwork.mk 15).route oracleZero
        { link_id := ("x").data, geoid := ("a").data }
        { link_id := ("y").data, geoid := ("a").data } =
      Except.ok [{ link_id := ("a-a").data, start := ("a").data, «end» := ("a").data,
                   distance_km := 0, speed_kmph := 40 }] from rfl] at h
  simp at h

/-- Claim C1, amended: `route` returns the empty sequence exactly when the
two `EntityPosition` records are equal in both fields (`geoid` and
`link_id`); equal geoids alone do not suffice. -/
theorem route_empty_iff_positions_equal (net : HaversineRoadNetwork)
    (h3_dist_km : DistOracle) (origin destination : EntityPosition) :
    net.route h3_dist_km origin destination = Except.ok [] ↔ origin = destination := by
  constructor
  · intro h
    by_contra hne
    cases horacle : h3_dist_km origin.geoid destination.geoid with
    | error e => simp [HaversineRoadNetwork.route, if_neg hne, horacle] at h
    | ok dist => simp [HaversineRoadNetwork.route, if_neg hne, horacle] at h
  · intro h
    rw [HaversineRoadNetwork.route, if_pos h]

/-- Claim C2, counterexample: `"-b"` splits into the two pieces `""` and
`"b"`, and decoding succeeds with an empty first part, contrary to the
claim; and the failure message for `"abc"` is a fixed string that does not
carry the offending input. -/
theorem link_id_to_geoids_accepts_empty_parts_cex :
    link_id_to_geoids ("-b").data = Except.ok ([], ("b").data) ∧
    link_id_to_geoids ("abc").data = Except.error malformedLinkIdMsg ∧
    ¬ List.IsInfix (("abc").data) malformedLinkIdMsg :=
  ⟨rfl, rfl, by decide⟩

/-- Claim C2, amended: decoding succeeds exactly when splitting on `"-"`
yields two pieces, which may be empty; with exactly two pieces it returns
them, and otherwise it fails with the fixed `MalformedLinkId` message (which
does not include the offending string). -/
theorem link_id_to_geoids_two_pieces (s : LinkId) :
    ((splitDash s).length = 2 →
      link_id_to_geoids s =
        Except.ok ((splitDash s).getD 0 [], (splitDash s).getD 1 [])) ∧
    ((splitDash s).length ≠ 2 →
      link_id_to_geoids s = Except.error malformedLinkIdMsg) := by
  constructor
  · intro h
    rw [link_id_to_geoids, if_neg (by simp [h])]
  · intro h
    rw [link_id_to_geoids, if_pos h]

/-- Claim C2, witness: the amended theorem applied to `"a-b"` (two pieces)
and to `"abc"` (one piece). -/
theorem link_id_to_geoids_two_pieces_witness :
    link_id_to_geoids ("a-b").data =
      Except.ok ((splitDash ("a-b").data).getD 0 [], (splitDash ("a-b").data).getD 1 []) ∧
    link_id_to_geoids ("abc").data = Except.error malformedLinkIdMsg :=
  ⟨(link_id_to_geoids_two_pieces ("a-b").data).1 (by decide),
   (link_id_to_geoids_two_pieces ("abc").data).2 (by decide)⟩

/-- Claim C3, counterexample: over an oracle returning `0` for equal cells
(and non-negative values everywhere), `link_from_link_id "a-a"` produces a
traversal with `start = end` whose speed is `40`, not `0`, so the claimed
equivalence fails in the `start = end` direction. -/
theorem self_link_zero_iff_cex :
    (HaversineRoadNetwork.mk 15).link_from_link_id oracleZero (("a-a").data) =
      Except.ok selfLoopTraversal ∧
    selfLoopTraversal.start = selfLoopTraversal.«end» ∧
    ¬ (selfLoopTraversal.distance_km = 0 ∧ selfLoopTraversal.speed_kmph = 0) := by
  refine ⟨rfl, rfl, fun h => ?_⟩
  have h40 : (40 : ℚ) = 0 := h.2
  norm_num at h40

/-- Claim C3, amended: every traversal built by `route` or by
`link_from_link_id` carries `speed_kmph = AVG_SPEED_KMPH` (`40`), so it
never has both `distance_km = 0` and `speed_kmph = 0`, even when
`start = end`; the traversal built by `link_from_geoid` has
`distance_km = 0`, `speed_kmph = 0` and `start = end`. -/
theorem traversal_speed_and_self_link :
    (∀ (net : HaversineRoadNetwork) (h3_dist_km : DistOracle)
        (origin destination : EntityPosition) (ts : List LinkTraversal),
        net.route h3_dist_km origin destination = Except.ok ts →
        ∀ t ∈ ts, t.speed_kmph = AVG_SPEED_KMPH) ∧
    (∀ (net : HaversineRoadNetwork) (h3_dist_km : DistOracle) (s : LinkId)
        (t : LinkTraversal),
        net.link_from_link_id h3_dist_km s = Except.ok t →
        t.speed_kmph = AVG_SPEED_KMPH) ∧
    (∀ (net : HaversineRoadNetwork) (g : GeoidString),
        (net.link_from_geoid g).distance_km = 0 ∧
        (net.link_from_geoid g).speed_kmph = 0 ∧
        (net.link_from_geoid g).start = (net.link_from_geoid g).«end») := by
  refine ⟨?_, ?_, ?_⟩
  · intro net h3_dist_km origin destination ts h t ht
    by_cases heq : origin = destination
    · rw [HaversineRoadNetwork.route, if_pos heq] at h
      rw [← Except.ok.inj h] at ht
      exact absurd ht (List.not_mem_nil t)
    · cases horacle : h3_dist_km origin.geoid destination.geoid with
      | error e => simp [HaversineRoadNetwork.route, if_neg heq, horacle] at h
      | ok dist =>
        simp only [HaversineRoadNetwork.route, if_neg heq, horacle,
          Except.ok.injEq] at h
        rw [← h] at ht
        rw [List.mem_singleton] at ht
        rw [ht]
  · intro net h3_dist_km s t h
    cases hdec : link_id_to_geoids s with
    | error e => simp [HaversineRoadNetwork.link_from_link_id, hdec] at h
    | ok ab =>
      obtain ⟨a, b⟩ := ab
      cases hdk : net.distance_by_geoid_km h3_dist_km a b with
      | error e => simp [HaversineRoadNetwork.link_from_link_id, hdec, hdk] at h
      | ok dist =>
        simp only [HaversineRoadNetwork.link_from_link_id, hdec, hdk,
          Except.ok.injEq] at h
        rw [← h]
  · intro net g
    exact ⟨rfl, rfl, rfl⟩

/-- Claim C3, witness: the speed part applied to a concrete successful call
of `route`. -/
theorem traversal_speed_witness :
    ({ link_id := geoid_string_to_link_id (("a").data) (("b").data),
       start := ("a").data, «end» := ("b").data,
       distance_km := 0, speed_kmph := 40 } : LinkTraversal).speed_kmph =
      AVG_SPEED_KMPH :=
  traversal_speed_and_self_link.1 (HaversineRoadNetwork.mk 15) oracleZero
    { link_id := ("p").data, geoid := ("a").data }
    { link_id := ("q").data, geoid := ("b").data }
    [{ link_id := geoid_string_to_link_id (("a").data) (("b").data),
       start := ("a").data, «end» := ("b").data, distance_km := 0, speed_kmph := 40 }]
    rfl _ (List.mem_singleton_self _)

/-- Claim C4: for non-empty cell identifiers `a` and `b`, neither containing
the separator, decoding the encoding of `(a, b)` succeeds and returns
exactly `(a, b)`. -/
theorem decode_encode_round_trip (a b : GeoidString)
    (hna : a ≠ []) (hnb : b ≠ []) (ha : '-' ∉ a) (hb : '-' ∉ b) :
    link_id_to_geoids (geoid_string_to_link_id a b) = Except.ok (a, b) :=
  link_id_to_geoids_encode a b ha hb

/-- Claim C4, witness: the round trip at the concrete pair `("a", "b")`. -/
theorem decode_encode_round_trip_witness :
    link_id_to_geoids (geoid_string_to_link_id (("a").data) (("b").data)) =
      Except.ok ((("a").data), (("b").data)) :=
  decode_encode_round_trip ("a").data ("b").data (by decide) (by decide)
    (by decide) (by decide)

/-- Claim C5: for positions over distinct cells, when the oracle succeeds,
`route` returns exactly one traversal with the encoded link id, the two
cells as endpoints, the oracle's distance, and speed exactly `40`. -/
theorem route_single_hop (net : HaversineRoadNetwork) (h3_dist_km : DistOracle)
    (origin destination : EntityPosition) (dist : ℚ)
    (hne : origin.geoid ≠ destination.geoid)
    (hor : h3_dist_km origin.geoid destination.geoid = Except.ok dist) :
    net.route h3_dist_km origin destination =
      Except.ok [{ link_id := geoid_string_to_link_id origin.geoid destination.geoid,
                   start := origin.geoid, «end» := destination.geoid,
                   distance_km := dist, speed_kmph := 40 }] := by
  have hne' : origin ≠ destination := fun h => hne (congrArg EntityPosition.geoid h)
  simp [HaversineRoadNetwork.route, if_neg hne', hor, AVG_SPEED_KMPH]

/-- Claim C5, witness: the single-hop route at cells `"a"` and `"b"` over
the all-zero oracle. -/
theorem route_single_hop_witness :
    (HaversineRoadNetwork.mk 15).route oracleZero
        { link_id := ("p").data, geoid := ("a").data }
        { link_id := ("q").data, geoid := ("b").data } =
      Except.ok [{ link_id := geoid_string_to_link_id (("a").data) (("b").data),
                   start := ("a").data, «end» := ("b").data,
                   distance_km := 0, speed_kmph := 40 }] :=
  route_single_hop (HaversineRoadNetwork.mk 15) oracleZero
    { link_id := ("p").data, geoid := ("a").data }
    { link_id := ("q").data, geoid := ("b").data } 0 (by decide) rfl

set_option maxRecDepth 4096 in
/-- Claim C6, counterexample: with an oracle that fails on every pair, for
the equal pair `("a", "a")` the call `route(pos(a), pos(a))` succeeds with
the empty route instead of failing; and for the separator-containing cell
`"x-y"`, `link_from_link_id(encode("x-y", "b"))` fails with the malformed-id
message, which does not include the oracle's cause `"boom"`. -/
theorem distance_failure_propagation_cex :
    oracleFail (("a").data) (("a").data) = Except.error (("boom").data) ∧
    (HaversineRoadNetwork.mk 15).route oracleFail
        ((HaversineRoadNetwork.mk 15).position_from_geoid (("a").data))
        ((HaversineRoadNetwork.mk 15).position_from_geoid (("a").data)) =
      Except.ok [] ∧
    oracleFail (("x-y").data) (("b").data) = Except.error (("boom").data) ∧
    (HaversineRoadNetwork.mk 15).link_from_link_id oracleFail
        (geoid_string_to_link_id (("x-y").data) (("b").data)) =
      Except.error (convertLinkIdErrMsg malformedLinkIdMsg) ∧
    ¬ List.IsInfix (("boom").data) (convertLinkIdErrMsg malformedLinkIdMsg) :=
  ⟨rfl, rfl, rfl, rfl, by decide⟩

/-- Claim C6, amended: for distinct cells `a ≠ b`, neither containing the
separator, whenever the oracle fails with cause `e`, then
`distance_by_geoid_km(a, b)`, `route` over any positions at `a` and `b`,
and `link_from_link_id(encode(a, b))` all fail with the message
`"Failure computing h3 distance: " ++ e`, which carries the underlying
cause; none returns a default result. -/
theorem distance_failure_propagation (net : HaversineRoadNetwork)
    (h3_dist_km : DistOracle) (a b e : List Char)
    (ha : '-' ∉ a) (hb : '-' ∉ b) (hab : a ≠ b)
    (hfail : h3_dist_km a b = Except.error e) :
    net.distance_by_geoid_km h3_dist_km a b = Except.error (h3FailureMsg e) ∧
    (∀ origin destination : EntityPosition, origin.geoid = a → destination.geoid = b →
      net.route h3_dist_km origin destination = Except.error (h3FailureMsg e)) ∧
    net.link_from_link_id h3_dist_km (geoid_string_to_link_id a b) =
      Except.error (h3FailureMsg e) := by
  refine ⟨?_, ?_, ?_⟩
  · simp [HaversineRoadNetwork.distance_by_geoid_km, hfail]
  · intro origin destination ho hd
    have hne : origin ≠ destination := by
      intro h
      exact hab (by rw [← ho, ← hd, h])
    simp [HaversineRoadNetwork.route, if_neg hne, ho, hd, hfail]
  · rw [HaversineRoadNetwork.link_from_link_id, link_id_to_geoids_encode a b ha hb]
    simp [HaversineRoadNetwork.distance_by_geoid_km, hfail]

/-- Claim C6, witness: the amended theorem applied to the distinct cells
`"a"` and `"b"` over the always-failing oracle. -/
theorem distance_failure_propagation_witness :
    (HaversineRoadNetwork.mk 15).distance_by_geoid_km oracleFail (("a").data) (("b").data) =
      Except.error (h3FailureMsg (("boom").data)) ∧
    (HaversineRoadNetwork.mk 15).route oracleFail
        { link_id := ("p").data, geoid := ("a").data }
        { link_id := ("q").data, geoid := ("b").data } =
      Except.error (h3FailureMsg (("boom").data)) ∧
    (HaversineRoadNetwork.mk 15).link_from_link_id oracleFail
        (geoid_string_to_link_id (("a").data) (("b").data)) =
      Except.error (h3FailureMsg (("boom").data)) := by
  obtain ⟨h1, h2, h3⟩ := distance_failure_propagation (HaversineRoadNetwork.mk 15)
    oracleFail ("a").data ("b").data ("boom").data (by decide) (by decide) (by decide) rfl
  exact ⟨h1, h2 { link_id := ("p").data, geoid := ("a").data }
    { link_id := ("q").data, geoid := ("b").data } rfl rfl, h3⟩

/-- Claim C7: when decoding succeeds and the oracle succeeds on the decoded
endpoints, `link_from_link_id` returns a traversal whose `link_id` is the
literal input string, whose endpoints are the decoded parts, and whose speed
is the fixed constant `40`. -/
theorem link_from_link_id_preserves_input (net : HaversineRoadNetwork)
    (h3_dist_km : DistOracle) (s : LinkId) (a b : GeoidString) (dist : ℚ)
    (hdec : link_id_to_geoids s = Except.ok (a, b))
    (hor : h3_dist_km a b = Except.ok dist) :
    net.link_from_link_id h3_dist_km s =
      Except.ok { link_id := s, start := a, «end» := b,
                  distance_km := dist, speed_kmph := 40 } := by
  simp [HaversineRoadNetwork.link_from_link_id, hdec,
    HaversineRoadNetwork.distance_by_geoid_km, hor, AVG_SPEED_KMPH]

/-- Claim C7, witness: `link_from_link_id "a-b"` over the all-zero oracle
preserves the literal input. -/
theorem link_from_link_id_preserves_input_witness :
    (HaversineRoadNetwork.mk 15).link_from_link_id oracleZero (("a-b").data) =
      Except.ok { link_id := ("a-b").data, start := ("a").data, «end» := ("b").data,
                  distance_km := 0, speed_kmph := 40 } :=
  link_from_link_id_preserves_input (HaversineRoadNetwork.mk 15) oracleZero
    ("a-b").data ("a").data ("b").data 0 rfl rfl

/-- Claim C8: `link_from_geoid c` is total and returns the self-link with
zero distance and speed, `start = end = c` and `link_id = encode(c, c)`;
`position_from_geoid c` returns the position with that same link id and
geoid `c`. -/
theorem link_from_geoid_self_link (net : HaversineRoadNetwork) (geoid : GeoidString) :
    net.link_from_geoid geoid =
      { link_id := geoid_string_to_link_id geoid geoid, start := geoid, «end» := geoid,
        distance_km := 0, speed_kmph := 0 } ∧
    net.position_from_geoid geoid =
      { link_id := geoid_string_to_link_id geoid geoid, geoid := geoid } :=
  ⟨rfl, rfl⟩

/-- Claim C9: every traversal returned by `route`, `link_from_link_id` or
`link_from_geoid` carries a `link_id` equal to the encoding of its own
`start` and `end` fields. -/
theorem link_id_consistent_with_endpoints :
    (∀ (net : HaversineRoadNetwork) (h3_dist_km : DistOracle)
        (origin destination : EntityPosition) (ts : List LinkTraversal),
        net.route h3_dist_km origin destination = Except.ok ts →
        ∀ t ∈ ts, t.link_id = geoid_string_to_link_id t.start t.«end») ∧
    (∀ (net : HaversineRoadNetwork) (h3_dist_km : DistOracle) (s : LinkId)
        (t : LinkTraversal),
        net.link_from_link_id h3_dist_km s = Except.ok t →
        t.link_id = geoid_string_to_link_id t.start t.«end») ∧
    (∀ (net : HaversineRoadNetwork) (g : GeoidString),
        (net.link_from_geoid g).link_id =
          geoid_string_to_link_id (net.link_from_geoid g).start
            (net.link_from_geoid g).«end») := by
  refine ⟨?_, ?_, ?_⟩
  · intro net h3_dist_km origin destination ts h t ht
    by_cases heq : origin = destination
    · rw [HaversineRoadNetwork.route, if_pos heq] at h
      rw [← Except.ok.inj h] at ht
      exact absurd ht (List.not_mem_nil t)
    · cases horacle : h3_dist_km origin.geoid destination.geoid with
      | error e => simp [HaversineRoadNetwork.route, if_neg heq, horacle] at h
      | ok dist =>
        simp only [HaversineRoadNetwork.route, if_neg heq, horacle,
          Except.ok.injEq] at h
        rw [← h] at ht
        rw [List.mem_singleton] at ht
        rw [ht]
  · intro net h3_dist_km s t h
    cases hdec : link_id_to_geoids s with
    | error e => simp [HaversineRoadNetwork.link_from_link_id, hdec] at h
    | ok ab =>
      obtain ⟨a, b⟩ := ab
      cases hdk : net.distance_by_geoid_km h3_dist_km a b with
      | error e => simp [HaversineRoadNetwork.link_from_link_id, hdec, hdk] at h
      | ok dist =>
        simp only [HaversineRoadNetwork.link_from_link_id, hdec, hdk,
          Except.ok.injEq] at h
        rw [← h]
        have hs : s = a ++ '-' :: b :=
          splitDash_eq_pair s a b (link_id_to_geoids_ok s a b hdec)
        show s = geoid_string_to_link_id a b
        rw [encode_eq_append]
        exact hs
  · intro net g
    rfl

/-- Claim C9, witness: the `route` part at a concrete successful call. -/
theorem link_id_consistent_witness :
    ({ link_id := geoid_string_to_link_id (("a").data) (("b").data),
       start := ("a").data, «end» := ("b").data,
       distance_km := 0, speed_kmph := 40 } : LinkTraversal).link_id =
      geoid_string_to_link_id (("a").data) (("b").data) :=
  link_id_consistent_with_endpoints.1 (HaversineRoadNetwork.mk 15) oracleZero
    { link_id := ("p").data, geoid := ("a").data }
    { link_id := ("q").data, geoid := ("b").data }
    [{ link_id := geoid_string_to_link_id (("a").data) (("b").data),
       start := ("a").data, «end» := ("b").data, distance_km := 0, speed_kmph := 40 }]
    rfl _ (List.mem_singleton_self _)

/-- Claim C10: no query operation reads `sim_h3_resolution`: two networks
with arbitrary (possibly different) resolutions agree on every operation at
identical inputs and identical oracle. -/
theorem resolution_noninterference (n1 n2 : HaversineRoadNetwork)
    (h3_dist_km : DistOracle) (origin destination : EntityPosition)
    (g1 g2 : GeoidString) (s : LinkId) :
    n1.route h3_dist_km origin destination = n2.route h3_dist_km origin destination ∧
    n1.distance_by_geoid_km h3_dist_km g1 g2 = n2.distance_by_geoid_km h3_dist_km g1 g2 ∧
    n1.link_from_link_id h3_dist_km s = n2.link_from_link_id h3_dist_km s ∧
    n1.link_from_geoid g1 = n2.link_from_geoid g1 ∧
    n1.position_from_geoid g1 = n2.position_from_geoid g1 ∧
    n1.geoid_within_geofence g1 = n2.geoid_within_geofence g1 :=
  ⟨rfl, rfl, rfl, rfl, rfl, rfl⟩

end RoadNetwork
